import Mathlib

/-!
Verification of the stance-resolution pipeline of `src/src/hexapod/VirtualHexapod.js`.

The repository ships only `VirtualHexapod.js`; its collaborators (`Vector`,
`Hexagon`, `Linkage`, the orientation and twist solvers, `geometry.js`,
`templates.js`, `constants.js`) are external modules not present under `src/`.
They are embedded here from the spec (sections 2, 4.1 to 4.4, 6): the fully
specified geometric plumbing (points, homogeneous transforms, the flat hexagon,
the clone operations) is given concrete rational-arithmetic definitions, and
the unspecified algorithms (leg forward kinematics, the orientation solver, the
twist solvers, the normal-alignment matrix and the trigonometric functions used
by the z-rotation matrix) are collected in an `Externals` record over which all
theorems quantify, so every theorem holds for every implementation of those
collaborators honouring the consumed interfaces.

Coordinates are rationals, so "within floating-point epsilon" statements are
settled exactly.
-/

namespace Hexapod

/-- Modelled from the spec: a `Vector` of the external Vector/Matrix primitives
component, an immutable 3-D point `{x, y, z, name, id}` (spec section 3 data
examples show the `name` and `id` fields). -/
structure Point where
  x : ℚ
  y : ℚ
  z : ℚ
  name : String
  id : String
deriving DecidableEq

/-- The coordinate triple of a point, used to compare geometry while ignoring
the bookkeeping `name` and `id` fields. -/
def Point.coords (p : Point) : ℚ × ℚ × ℚ :=
  (p.x, p.y, p.z)

/-- Modelled from the spec: a 4x4 homogeneous transform of the external
Vector/Matrix primitives component. -/
structure Mat4 where
  m00 : ℚ
  m01 : ℚ
  m02 : ℚ
  m03 : ℚ
  m10 : ℚ
  m11 : ℚ
  m12 : ℚ
  m13 : ℚ
  m20 : ℚ
  m21 : ℚ
  m22 : ℚ
  m23 : ℚ
  m30 : ℚ
  m31 : ℚ
  m32 : ℚ
  m33 : ℚ
deriving DecidableEq

/-- Modelled from the spec: the 4x4 identity transform (`identity(4)` from
mathjs used by `VirtualHexapod.js`). -/
def identity4 : Mat4 :=
  ⟨1, 0, 0, 0, 0, 1, 0, 0, 0, 0, 1, 0, 0, 0, 0, 1⟩

/-- Modelled from the spec: `Vector.cloneTrot(transformMatrix)` applies the
homogeneous transform to the point `(x, y, z, 1)` and keeps `name` and `id`. -/
def Point.cloneTrot (p : Point) (m : Mat4) : Point :=
  { p with
    x := m.m00 * p.x + m.m01 * p.y + m.m02 * p.z + m.m03
    y := m.m10 * p.x + m.m11 * p.y + m.m12 * p.z + m.m13
    z := m.m20 * p.x + m.m21 * p.y + m.m22 * p.z + m.m23 }

/-- Modelled from the spec: `Vector.newTrot(transformMatrix, name)` is
`cloneTrot` returning a freshly named vector (with the default id). -/
def Point.newTrot (p : Point) (m : Mat4) (name : String) : Point :=
  { p.cloneTrot m with name := name, id := "no-id" }

/-- Modelled from the spec: `Vector.cloneShift(tx, ty, tz)` translates the
point, keeping `name` and `id`. -/
def Point.cloneShift (p : Point) (tx ty tz : ℚ) : Point :=
  { p with x := p.x + tx, y := p.y + ty, z := p.z + tz }

/-- Modelled from the spec: `Vector.cloneTrotShift(matrix, tx, ty, tz)` is the
rigid transform followed by the translation. -/
def Point.cloneTrotShift (p : Point) (m : Mat4) (tx ty tz : ℚ) : Point :=
  (p.cloneTrot m).cloneShift tx ty tz

/-- The six dimensions of `this.dimensions` (spec section 3). -/
structure Dimensions where
  front : ℚ
  side : ℚ
  middle : ℚ
  coxia : ℚ
  femur : ℚ
  tibia : ℚ
deriving DecidableEq

/-- The body subset `{front, middle, side}` produced by the
`bodyDimensions` getter. -/
structure BodyDimensions where
  front : ℚ
  middle : ℚ
  side : ℚ
deriving DecidableEq

/-- The leg subset `{coxia, femur, tibia}` produced by the
`legDimensions` getter. -/
structure LegDimensions where
  coxia : ℚ
  femur : ℚ
  tibia : ℚ
deriving DecidableEq

/-- The `get bodyDimensions()` accessor of `VirtualHexapod`. -/
def bodyDimensionsOf (d : Dimensions) : BodyDimensions :=
  ⟨d.front, d.middle, d.side⟩

/-- The `get legDimensions()` accessor of `VirtualHexapod`. -/
def legDimensionsOf (d : Dimensions) : LegDimensions :=
  ⟨d.coxia, d.femur, d.tibia⟩

/-- One leg's `{alpha, beta, gamma}` joint-angle triple (spec section 3). -/
structure PoseAngles where
  alpha : ℚ
  beta : ℚ
  gamma : ℚ
deriving DecidableEq

/-- `this.pose`: a hash mapping each of the six position names to a
`PoseAngles` triple (spec section 3). -/
structure Pose where
  rightMiddle : PoseAngles
  rightFront : PoseAngles
  leftFront : PoseAngles
  leftMiddle : PoseAngles
  leftBack : PoseAngles
  rightBack : PoseAngles
deriving DecidableEq

/-- Hash lookup `pose[position]`; only ever consulted at the six canonical
position names (unknown names fall through to the last field). -/
def Pose.get (p : Pose) (position : String) : PoseAngles :=
  if position = "rightMiddle" then p.rightMiddle
  else if position = "rightFront" then p.rightFront
  else if position = "leftFront" then p.leftFront
  else if position = "leftMiddle" then p.leftMiddle
  else if position = "leftBack" then p.leftBack
  else p.rightBack

/-- Modelled from the spec: `POSITION_NAMES_LIST` of the external constants
module, the canonical leg order whose first element is the rightMiddle leg and
last element the rightBack leg (source comment, lines 60 to 63). -/
def POSITION_NAMES_LIST : List String :=
  ["rightMiddle", "rightFront", "leftFront", "leftMiddle", "leftBack", "rightBack"]

/-- Modelled from the spec: `DEFAULT_POSE` of the external templates module,
the reference pose built with no joint rotation (section 4.5 step 7). -/
def DEFAULT_POSE : Pose :=
  ⟨⟨0, 0, 0⟩, ⟨0, 0, 0⟩, ⟨0, 0, 0⟩, ⟨0, 0, 0⟩, ⟨0, 0, 0⟩, ⟨0, 0, 0⟩⟩

/-- Modelled from the spec: the `Hexagon` body, six vertices plus head point
plus center-of-gravity point (spec sections 3, 4.2). -/
structure Hexagon where
  verticesList : List Point
  head : Point
  cog : Point
deriving DecidableEq

/-- Modelled from the spec: `new Hexagon(bodyDimensions)` builds the flat body
with every point at `z = 0`, the center of gravity at the origin (section
4.2); vertices are placed symmetrically from `front`, `middle`, `side`. -/
def buildHexagon (d : BodyDimensions) : Hexagon :=
  { verticesList := [
      ⟨d.middle, 0, 0, "rightMiddleVertex", "no-id"⟩,
      ⟨d.front, d.side, 0, "rightFrontVertex", "no-id"⟩,
      ⟨-d.front, d.side, 0, "leftFrontVertex", "no-id"⟩,
      ⟨-d.middle, 0, 0, "leftMiddleVertex", "no-id"⟩,
      ⟨-d.front, -d.side, 0, "leftBackVertex", "no-id"⟩,
      ⟨d.front, -d.side, 0, "rightBackVertex", "no-id"⟩],
    head := ⟨0, d.side, 0, "headPoint", "no-id"⟩,
    cog := ⟨0, 0, 0, "centerOfGravityPoint", "no-id"⟩ }

/-- Modelled from the spec: `Hexagon.cloneTrot`, the rigid transform applied
uniformly to every stored point (section 4.2). -/
def Hexagon.cloneTrot (hex : Hexagon) (m : Mat4) : Hexagon :=
  { verticesList := hex.verticesList.map (fun p => p.cloneTrot m),
    head := hex.head.cloneTrot m,
    cog := hex.cog.cloneTrot m }

/-- Modelled from the spec: `Hexagon.cloneShift`. -/
def Hexagon.cloneShift (hex : Hexagon) (tx ty tz : ℚ) : Hexagon :=
  { verticesList := hex.verticesList.map (fun p => p.cloneShift tx ty tz),
    head := hex.head.cloneShift tx ty tz,
    cog := hex.cog.cloneShift tx ty tz }

/-- Modelled from the spec: `Hexagon.cloneTrotShift`. -/
def Hexagon.cloneTrotShift (hex : Hexagon) (m : Mat4) (tx ty tz : ℚ) : Hexagon :=
  { verticesList := hex.verticesList.map (fun p => p.cloneTrotShift m tx ty tz),
    head := hex.head.cloneTrotShift m tx ty tz,
    cog := hex.cog.cloneTrotShift m tx ty tz }

/-- Modelled from the spec: a `Linkage` (one leg), holding its joint points,
its position identifier, its pose angles, and its designated maybe ground
contact point (spec sections 3, 4.1). -/
structure Linkage where
  dimensions : LegDimensions
  position : String
  pose : PoseAngles
  allPointsList : List Point
  maybeGroundContactPoint : Point
deriving DecidableEq

/-- Modelled from the spec: `Linkage.cloneTrot`, a new leg with every point
consistently transformed (section 4.1). -/
def Linkage.cloneTrot (leg : Linkage) (m : Mat4) : Linkage :=
  { leg with
    allPointsList := leg.allPointsList.map (fun p => p.cloneTrot m),
    maybeGroundContactPoint := leg.maybeGroundContactPoint.cloneTrot m }

/-- Modelled from the spec: `Linkage.cloneShift`. -/
def Linkage.cloneShift (leg : Linkage) (tx ty tz : ℚ) : Linkage :=
  { leg with
    allPointsList := leg.allPointsList.map (fun p => p.cloneShift tx ty tz),
    maybeGroundContactPoint := leg.maybeGroundContactPoint.cloneShift tx ty tz }

/-- Modelled from the spec: `Linkage.cloneTrotShift`. -/
def Linkage.cloneTrotShift (leg : Linkage) (m : Mat4) (tx ty tz : ℚ) : Linkage :=
  { leg with
    allPointsList := leg.allPointsList.map (fun p => p.cloneTrotShift m tx ty tz),
    maybeGroundContactPoint := leg.maybeGroundContactPoint.cloneTrotShift m tx ty tz }

/-- The result type of the external orientation solver (spec section 4.3);
the source calls the leg list field `groundLegsNoGravity`. -/
structure OrientSolution where
  nAxis : Point
  height : ℚ
  groundLegsNoGravity : List Linkage
deriving DecidableEq

/-- Modelled from the spec: the external collaborators consumed by
`VirtualHexapod.js` whose algorithms live outside `src/` (spec sections 4.1 to
4.4). `fk` is the leg forward kinematics: from leg dimensions, position name,
attachment vertex and pose angles it yields the leg's joint points and its
maybe ground contact point. `cosd` and `sind` are the trigonometric functions
used by the z-rotation matrix (not exactly representable over the rationals,
hence abstracted). All theorems quantify over this record. -/
structure Externals where
  fk : LegDimensions → String → Point → PoseAngles → List Point × Point
  computeOrientationProperties : List Linkage → Option OrientSolution
  matrixToAlignVectorAtoB : Point → Point → Mat4
  simpleTwist : List Linkage → ℚ
  mightTwist : List Linkage → Bool
  complexTwist : List Point → List Point → ℚ
  cosd : ℚ → ℚ
  sind : ℚ → ℚ

/-- Modelled from the spec: `new Linkage(legDimensions, position, vertex,
pose)` stores its inputs and the forward-kinematics output (section 4.1). -/
def buildLinkage (fk : LegDimensions → String → Point → PoseAngles → List Point × Point)
    (dims : LegDimensions) (position : String) (vertex : Point)
    (angles : PoseAngles) : Linkage :=
  ⟨dims, position, angles, (fk dims position vertex angles).1,
    (fk dims position vertex angles).2⟩

/-- `buildLegsList` of `VirtualHexapod.js`: one linkage per canonical
position, attached to the matching body vertex, posed from the pose hash. -/
def buildLegsList (fk : LegDimensions → String → Point → PoseAngles → List Point × Point)
    (verticesList : List Point) (pose : Pose) (legDims : LegDimensions) : List Linkage :=
  (POSITION_NAMES_LIST.zip verticesList).map
    (fun pv => buildLinkage fk legDims pv.1 pv.2 (pose.get pv.1))

/-- `this.localAxes`: the three axis vectors of the body frame (spec
section 3). -/
structure LocalAxes where
  xAxis : Point
  yAxis : Point
  zAxis : Point
deriving DecidableEq

/-- `WORLD_AXES` of `VirtualHexapod.js`. -/
def WORLD_AXES : LocalAxes :=
  ⟨⟨1, 0, 0, "worldXaxis", "no-id"⟩,
   ⟨0, 1, 0, "worldYaxis", "no-id"⟩,
   ⟨0, 0, 1, "worldZaxis", "no-id"⟩⟩

/-- `computeLocalAxes` of `VirtualHexapod.js`: the world axes pushed through
the transform and renamed. -/
def computeLocalAxes (m : Mat4) : LocalAxes :=
  ⟨WORLD_AXES.xAxis.newTrot m "hexapodXaxis",
   WORLD_AXES.yAxis.newTrot m "hexapodYaxis",
   WORLD_AXES.zAxis.newTrot m "hexapodZaxis"⟩

/-- `transformLocalAxes` of `VirtualHexapod.js`. -/
def transformLocalAxes (a : LocalAxes) (m : Mat4) : LocalAxes :=
  ⟨a.xAxis.cloneTrot m, a.yAxis.cloneTrot m, a.zAxis.cloneTrot m⟩

/-- Modelled from the spec: `tRotZmatrix(theta)` of the external geometry
module, the homogeneous rotation about the world z-axis (section 4.5 step 6,
"specialized to a pure z-rotation"), with the trigonometric functions
abstracted. -/
def tRotZmatrix (cosd sind : ℚ → ℚ) (theta : ℚ) : Mat4 :=
  ⟨cosd theta, -(sind theta), 0, 0,
   sind theta, cosd theta, 0, 0,
   0, 0, 1, 0,
   0, 0, 0, 1⟩

/-- The construction flags `{noGravity, shiftedUp, hasNoPoints}`. -/
structure Flags where
  noGravity : Bool
  shiftedUp : Bool
  hasNoPoints : Bool
deriving DecidableEq

/-- The `VirtualHexapod` state. The geometry fields are `Option`s: the JS
class leaves `legs`, `body`, `localAxes` declared but unassigned (and
`groundContactPoints` entirely absent) on the `hasNoPoints` early return. -/
structure VirtualHexapod where
  dimensions : Dimensions
  pose : Pose
  twistAngle : ℚ
  legs : Option (List Linkage)
  body : Option Hexagon
  localAxes : Option LocalAxes
  groundContactPoints : Option (List Point)
deriving DecidableEq

/-- The state right after `Object.assign(this, {dimensions, pose,
twistAngle: 0})`, which is also the final state of the `hasNoPoints` early
return. -/
def emptyShell (d : Dimensions) (p : Pose) : VirtualHexapod :=
  ⟨d, p, 0, none, none, none, none⟩

/-- `_danglingHexapod` of `VirtualHexapod.js`: world-aligned axes, no ground
contact points, flat body and legs, optionally shifted up by the sum of the
three leg segment lengths. -/
def danglingHexapod (d : Dimensions) (p : Pose) (body : Hexagon)
    (legs : List Linkage) (shiftedUp : Bool) : VirtualHexapod :=
  let axes := computeLocalAxes identity4
  if shiftedUp then
    let height := (legDimensionsOf d).coxia + (legDimensionsOf d).femur +
      (legDimensionsOf d).tibia
    ⟨d, p, 0,
      some (legs.map (fun leg => leg.cloneTrotShift identity4 0 0 height)),
      some (body.cloneTrotShift identity4 0 0 height),
      some axes, some []⟩
  else
    ⟨d, p, 0, some legs, some body, some axes, some []⟩

/-- The flat hexagon built in the constructor from `this.bodyDimensions`. -/
def flatBody (d : Dimensions) : Hexagon :=
  buildHexagon (bodyDimensionsOf d)

/-- `legsNoGravity` of the constructor: the six flat legs. -/
def flatLegs (E : Externals) (d : Dimensions) (p : Pose) : List Linkage :=
  buildLegsList E.fk (flatBody d).verticesList p (legDimensionsOf d)

/-- The alignment matrix of constructor step 2:
`matrixToAlignVectorAtoB(solved.nAxis, WORLD_AXES.zAxis)`. -/
def alignMatrix (E : Externals) (sol : OrientSolution) : Mat4 :=
  E.matrixToAlignVectorAtoB sol.nAxis WORLD_AXES.zAxis

/-- The state at the end of constructor step 2 (AlignAndShift): legs, body,
local axes and ground contact points rotated to the solved orientation and
raised by the solved height; `twistAngle` still `0`. -/
def alignedHexapod (E : Externals) (d : Dimensions) (p : Pose)
    (sol : OrientSolution) : VirtualHexapod :=
  { dimensions := d, pose := p, twistAngle := 0,
    legs := some ((flatLegs E d p).map
      (fun leg => leg.cloneTrotShift (alignMatrix E sol) 0 0 sol.height)),
    body := some ((flatBody d).cloneTrotShift (alignMatrix E sol) 0 0 sol.height),
    localAxes := some (computeLocalAxes (alignMatrix E sol)),
    groundContactPoints := some (sol.groundLegsNoGravity.map
      (fun leg => leg.maybeGroundContactPoint.cloneTrotShift
        (alignMatrix E sol) 0 0 sol.height)) }

/-- `_twist` of `VirtualHexapod.js`: rotate the current legs, body, ground
contact points and local axes by `tRotZmatrix(this.twistAngle)`. -/
def twistStep (E : Externals) (h : VirtualHexapod) : VirtualHexapod :=
  let tw := tRotZmatrix E.cosd E.sind h.twistAngle
  { h with
    legs := h.legs.map (fun ls => ls.map (fun leg => leg.cloneTrot tw)),
    body := h.body.map (fun b => b.cloneTrot tw),
    groundContactPoints := h.groundContactPoints.map
      (fun ps => ps.map (fun pt => pt.cloneTrot tw)),
    localAxes := h.localAxes.map (fun a => transformLocalAxes a tw) }

/-- Setting `this.twistAngle = angle` and then running `_twist()`. -/
def applyZTwist (E : Externals) (angle : ℚ) (h : VirtualHexapod) : VirtualHexapod :=
  twistStep E { h with twistAngle := angle }

/-- `oldPoints` of constructor step 3: the maybe ground contact points of the
default-pose legs built on the same flat hexagon. -/
def defaultGroundPoints (E : Externals) (d : Dimensions) : List Point :=
  (buildLegsList E.fk (flatBody d).verticesList DEFAULT_POSE
    (legDimensionsOf d)).map (fun leg => leg.maybeGroundContactPoint)

/-- `newPoints` of constructor step 3: the maybe ground contact points of the
solved ground legs (still in the flat frame). -/
def solvedGroundPoints (sol : OrientSolution) : List Point :=
  sol.groundLegsNoGravity.map (fun leg => leg.maybeGroundContactPoint)

/-- The angle `complexTwist(oldPoints, newPoints)` of constructor step 3. -/
def complexTwistAngle (E : Externals) (d : Dimensions) (sol : OrientSolution) : ℚ :=
  E.complexTwist (defaultGroundPoints E d) (solvedGroundPoints sol)

/-- Constructor step 3, first half: `this.twistAngle = simpleTwist(...)`, then
`_twist()` when the angle is nonzero. -/
def simpleTwistStage (E : Externals) (sol : OrientSolution)
    (h : VirtualHexapod) : VirtualHexapod :=
  if E.simpleTwist sol.groundLegsNoGravity = 0 then
    { h with twistAngle := E.simpleTwist sol.groundLegsNoGravity }
  else applyZTwist E (E.simpleTwist sol.groundLegsNoGravity) h

/-- Constructor step 3, second half: when `mightTwist` holds, overwrite
`this.twistAngle` with the complex twist angle and run `_twist()` again on the
current state. -/
def complexTwistStage (E : Externals) (d : Dimensions) (sol : OrientSolution)
    (h : VirtualHexapod) : VirtualHexapod :=
  if E.mightTwist sol.groundLegsNoGravity then
    applyZTwist E (complexTwistAngle E d sol) h
  else h

/-- Constructor step 3 in full: return unchanged when every (aligned) leg has
a zero alpha pose angle, otherwise run the simple then the complex stage. -/
def twistPhase (E : Externals) (d : Dimensions) (sol : OrientSolution)
    (h : VirtualHexapod) : VirtualHexapod :=
  if (h.legs.getD []).all (fun leg => leg.pose.alpha == 0) then h
  else complexTwistStage E d sol (simpleTwistStage E sol h)

/-- The `VirtualHexapod` constructor. -/
def construct (E : Externals) (d : Dimensions) (p : Pose) (flags : Flags) :
    VirtualHexapod :=
  if flags.hasNoPoints then emptyShell d p
  else if flags.noGravity then
    danglingHexapod d p (flatBody d) (flatLegs E d p) flags.shiftedUp
  else
    match E.computeOrientationProperties (flatLegs E d p) with
    | none => danglingHexapod d p (flatBody d) (flatLegs E d p) flags.shiftedUp
    | some solved => twistPhase E d solved (alignedHexapod E d p solved)

/-- `get distanceFromGround()`: read on access from the stored body. -/
def VirtualHexapod.distanceFromGround (h : VirtualHexapod) : Option ℚ :=
  h.body.map (fun b => b.cog.z)

/-- `get cogProjection()`: the stored body's center of gravity projected to
`z = 0`. -/
def VirtualHexapod.cogProjection (h : VirtualHexapod) : Option Point :=
  h.body.map (fun b => ⟨b.cog.x, b.cog.y, 0, "centerOfGravityProjectionPoint", "no-id"⟩)

/-- `get hasTwisted()`. -/
def VirtualHexapod.hasTwisted (h : VirtualHexapod) : Prop :=
  h.twistAngle ≠ 0

/-- `cloneTrot` of `VirtualHexapod.js`: an empty shell (built with
`hasNoPoints`, identical to `emptyShell` for every choice of externals) whose
geometry is the original's pushed through the rotation, with `localAxes`
recomputed by rotating the original axes. -/
def VirtualHexapod.cloneTrot (h : VirtualHexapod) (m : Mat4) : VirtualHexapod :=
  { emptyShell h.dimensions h.pose with
    body := h.body.map (fun b => b.cloneTrot m),
    legs := h.legs.map (fun ls => ls.map (fun leg => leg.cloneTrot m)),
    groundContactPoints := h.groundContactPoints.map
      (fun ps => ps.map (fun pt => pt.cloneTrot m)),
    localAxes := h.localAxes.map (fun a => transformLocalAxes a m) }

/-- `cloneShift` of `VirtualHexapod.js`: an empty shell whose geometry is the
original's translated, and whose `localAxes` is the original's unchanged. -/
def VirtualHexapod.cloneShift (h : VirtualHexapod) (tx ty tz : ℚ) : VirtualHexapod :=
  { emptyShell h.dimensions h.pose with
    body := h.body.map (fun b => b.cloneShift tx ty tz),
    legs := h.legs.map (fun ls => ls.map (fun leg => leg.cloneShift tx ty tz)),
    groundContactPoints := h.groundContactPoints.map
      (fun ps => ps.map (fun pt => pt.cloneShift tx ty tz)),
    localAxes := h.localAxes }

/-- Trivial forward kinematics used for concrete evaluations: the leg's point
list is just its attachment vertex, which is also its maybe ground contact
point. -/
def fkTriv : LegDimensions → String → Point → PoseAngles → List Point × Point :=
  fun _ _ vertex _ => ([vertex], vertex)

/-- A concrete unit normal along the world z-axis. -/
def zAxisPoint : Point := ⟨0, 0, 1, "normalAxis", "no-id"⟩

/-- Concrete externals whose orientation solver finds no support. -/
def EnoSupport : Externals :=
  ⟨fkTriv, fun _ => none, fun _ _ => identity4, fun _ => 0, fun _ => false,
    fun _ _ => 0, fun _ => 1, fun _ => 0⟩

/-- Concrete externals whose orientation solver succeeds (all six legs on the
supporting plane, zero height, normal already vertical) and whose twist
solvers report a simple twist of 90, a complex twist of 180 and `mightTwist`
true; the trigonometric functions are exact at 0, 90 and 180 degrees. -/
def Etwist : Externals :=
  ⟨fkTriv, fun legs => some ⟨zAxisPoint, 0, legs⟩, fun _ _ => identity4,
    fun _ => 90, fun _ => true, fun _ _ => 180,
    fun q => if q = 90 then 0 else if q = 180 then -1 else 1,
    fun q => if q = 90 then 1 else 0⟩

/-- Concrete externals like `Etwist` but with silent twist solvers. -/
def Esupport : Externals :=
  ⟨fkTriv, fun legs => some ⟨zAxisPoint, 0, legs⟩, fun _ _ => identity4,
    fun _ => 0, fun _ => false, fun _ _ => 0, fun _ => 1, fun _ => 0⟩

/-- Concrete dimensions (the neutral-stance scenario of spec section 8). -/
def dconc : Dimensions := ⟨100, 100, 100, 50, 80, 130⟩

/-- A concrete pose whose rightMiddle alpha angle is nonzero. -/
def pTwist : Pose :=
  ⟨⟨1, 0, 0⟩, ⟨0, 0, 0⟩, ⟨0, 0, 0⟩, ⟨0, 0, 0⟩, ⟨0, 0, 0⟩, ⟨0, 0, 0⟩⟩

/-- A concrete pose with every alpha zero but nonzero betas and gammas. -/
def pBetaGamma : Pose :=
  ⟨⟨0, 2, 3⟩, ⟨0, 2, 3⟩, ⟨0, 2, 3⟩, ⟨0, 2, 3⟩, ⟨0, 2, 3⟩, ⟨0, 2, 3⟩⟩

/-- The solution the `Etwist` solver returns on the flat legs of `pTwist`. -/
def solTwist : OrientSolution := ⟨zAxisPoint, 0, flatLegs Etwist dconc pTwist⟩

/-- The solution the `Etwist` solver returns on the flat legs of
`pBetaGamma`. -/
def solBetaGamma : OrientSolution :=
  ⟨zAxisPoint, 0, flatLegs Etwist dconc pBetaGamma⟩

/-- The solution the `Esupport` solver returns on the flat legs of `pTwist`. -/
def solSupport : OrientSolution := ⟨zAxisPoint, 0, flatLegs Esupport dconc pTwist⟩

/-- A concrete stance holding a body, for evaluating the derived accessors. -/
def hWithBody : VirtualHexapod :=
  ⟨dconc, pTwist, 0, none, some (buildHexagon ⟨4, 5, 6⟩), none, none⟩

theorem point_cloneShift_zero (p : Point) : p.cloneShift 0 0 0 = p := by
  simp [Point.cloneShift]

theorem point_cloneTrot_identity4 (p : Point) : p.cloneTrot identity4 = p := by
  simp [Point.cloneTrot, identity4]

theorem point_cloneTrotShift_identity4_shift (p : Point) (tx ty tz : ℚ) :
    p.cloneTrotShift identity4 tx ty tz = p.cloneShift tx ty tz := by
  rw [Point.cloneTrotShift, point_cloneTrot_identity4]

theorem linkage_cloneShift_zero (leg : Linkage) : leg.cloneShift 0 0 0 = leg := by
  simp [Linkage.cloneShift, point_cloneShift_zero]

theorem linkage_cloneTrot_identity4 (leg : Linkage) : leg.cloneTrot identity4 = leg := by
  simp [Linkage.cloneTrot, point_cloneTrot_identity4]

theorem hexagon_cloneShift_zero (hex : Hexagon) : hex.cloneShift 0 0 0 = hex := by
  simp [Hexagon.cloneShift, point_cloneShift_zero]

theorem hexagon_cloneTrot_identity4 (hex : Hexagon) : hex.cloneTrot identity4 = hex := by
  simp [Hexagon.cloneTrot, point_cloneTrot_identity4]

theorem transformLocalAxes_identity4 (a : LocalAxes) :
    transformLocalAxes a identity4 = a := by
  simp [transformLocalAxes, point_cloneTrot_identity4]

theorem linkage_cloneTrotShift_identity4_shift (leg : Linkage) (tx ty tz : ℚ) :
    leg.cloneTrotShift identity4 tx ty tz = leg.cloneShift tx ty tz := by
  simp [Linkage.cloneTrotShift, Linkage.cloneShift,
    point_cloneTrotShift_identity4_shift]

theorem hexagon_cloneTrotShift_identity4_shift (hex : Hexagon) (tx ty tz : ℚ) :
    hex.cloneTrotShift identity4 tx ty tz = hex.cloneShift tx ty tz := by
  simp [Hexagon.cloneTrotShift, Hexagon.cloneShift,
    point_cloneTrotShift_identity4_shift]

/-- The local axes produced by the identity transform carry the world axis
coordinates. -/
theorem computeLocalAxes_identity4_coords :
    (computeLocalAxes identity4).xAxis.coords = (1, 0, 0) ∧
    (computeLocalAxes identity4).yAxis.coords = (0, 1, 0) ∧
    (computeLocalAxes identity4).zAxis.coords = (0, 0, 1) := by
  refine ⟨?_, ?_, ?_⟩ <;>
    · simp [computeLocalAxes, Point.newTrot, Point.cloneTrot, identity4,
        WORLD_AXES, Point.coords]

/-- **C9** For every externals implementation, dimensions and pose, and any
setting of the other two flags, constructing with `hasNoPoints` returns
immediately with the empty shell: the given dimensions and pose, `twistAngle`
zero, and no body, legs, local axes or ground contact points; since the result
is the same for every `Externals`, no collaborator computation can influence
it. -/
theorem construct_hasNoPoints_emptyShell (E : Externals) (d : Dimensions)
    (p : Pose) (ng su : Bool) :
    construct E d p ⟨ng, su, true⟩ =
      { dimensions := d, pose := p, twistAngle := 0, legs := none,
        body := none, localAxes := none, groundContactPoints := none } := by
  rfl

/-- **C6** `cloneShift` by `(0, 0, 0)` is the identity on all coordinates:
the clone's body, legs, ground contact points and local axes equal the
original's exactly. -/
theorem cloneShift_zero_identity (h : VirtualHexapod) :
    (h.cloneShift 0 0 0).body = h.body ∧
    (h.cloneShift 0 0 0).legs = h.legs ∧
    (h.cloneShift 0 0 0).groundContactPoints = h.groundContactPoints ∧
    (h.cloneShift 0 0 0).localAxes = h.localAxes := by
  have hpt : (fun pt : Point => pt.cloneShift 0 0 0) = id := by
    funext pt; exact point_cloneShift_zero pt
  have hleg : (fun leg : Linkage => leg.cloneShift 0 0 0) = id := by
    funext leg; exact linkage_cloneShift_zero leg
  have hhex : (fun b : Hexagon => b.cloneShift 0 0 0) = id := by
    funext b; exact hexagon_cloneShift_zero b
  refine ⟨?_, ?_, ?_, ?_⟩ <;>
    simp [VirtualHexapod.cloneShift, hpt, hleg, hhex, Option.map_id]

/-- **C7** `cloneTrot` with the identity matrix reproduces the original body,
legs and ground contact points exactly (coordinates are rationals, so the
floating-point-epsilon clause is settled exactly), and leaves the local axes
equal to the original's. -/
theorem cloneTrot_identity4_identity (h : VirtualHexapod) :
    (h.cloneTrot identity4).body = h.body ∧
    (h.cloneTrot identity4).legs = h.legs ∧
    (h.cloneTrot identity4).groundContactPoints = h.groundContactPoints ∧
    (h.cloneTrot identity4).localAxes = h.localAxes := by
  have hpt : (fun pt : Point => pt.cloneTrot identity4) = id := by
    funext pt; exact point_cloneTrot_identity4 pt
  have hleg : (fun leg : Linkage => leg.cloneTrot identity4) = id := by
    funext leg; exact linkage_cloneTrot_identity4 leg
  have hhex : (fun b : Hexagon => b.cloneTrot identity4) = id := by
    funext b; exact hexagon_cloneTrot_identity4 b
  have haxes : (fun a : LocalAxes => transformLocalAxes a identity4) = id := by
    funext a; exact transformLocalAxes_identity4 a
  refine ⟨?_, ?_, ?_, ?_⟩ <;>
    simp [VirtualHexapod.cloneTrot, hpt, hleg, hhex, haxes, Option.map_id]

/-- **C10** For every stance and every shift, the stance returned by
`cloneShift` keeps `localAxes` identical to the original's (a pure translation
never changes the orientation frame) and carries the original's dimensions and
pose; the operation is a pure function of the original, which is a value and
is therefore left unchanged. -/
theorem cloneShift_frame_unchanged (h : VirtualHexapod) (tx ty tz : ℚ) :
    (h.cloneShift tx ty tz).localAxes = h.localAxes ∧
    (h.cloneShift tx ty tz).dimensions = h.dimensions ∧
    (h.cloneShift tx ty tz).pose = h.pose := by
  refine ⟨rfl, rfl, rfl⟩

/-- The dangling fallback never reports ground contact points. -/
theorem danglingHexapod_gcp (d : Dimensions) (p : Pose) (body : Hexagon)
    (legs : List Linkage) (su : Bool) :
    (danglingHexapod d p body legs su).groundContactPoints = some [] := by
  unfold danglingHexapod
  by_cases hsu : su = true <;> simp [hsu]

/-- The dangling fallback has twist angle zero. -/
theorem danglingHexapod_twistAngle (d : Dimensions) (p : Pose) (body : Hexagon)
    (legs : List Linkage) (su : Bool) :
    (danglingHexapod d p body legs su).twistAngle = 0 := by
  unfold danglingHexapod
  by_cases hsu : su = true <;> simp [hsu]

/-- The dangling fallback's local axes are the world axes pushed through the
identity transform. -/
theorem danglingHexapod_localAxes (d : Dimensions) (p : Pose) (body : Hexagon)
    (legs : List Linkage) (su : Bool) :
    (danglingHexapod d p body legs su).localAxes =
      some (computeLocalAxes identity4) := by
  unfold danglingHexapod
  by_cases hsu : su = true <;> simp [hsu]

/-- With all flags clear, an unstable pose lands in the dangling fallback
with the flat geometry. -/
theorem construct_unstable_eq_dangling (E : Externals) (d : Dimensions)
    (p : Pose) (su : Bool)
    (hnone : E.computeOrientationProperties (flatLegs E d p) = none) :
    construct E d p ⟨false, su, false⟩ =
      danglingHexapod d p (flatBody d) (flatLegs E d p) su := by
  simp [construct, hnone]

/-- **C2** If the orientation solver returns no value and all three flags are
false, construction does not fail but yields the dangling stance: no ground
contact points, zero twist angle, the body and the six legs exactly the flat
geometry of `FlatBuild`, and local axes carrying the world unit axis
coordinates. -/
theorem unstable_pose_dangling (E : Externals) (d : Dimensions) (p : Pose)
    (hnone : E.computeOrientationProperties (flatLegs E d p) = none) :
    (construct E d p ⟨false, false, false⟩).groundContactPoints = some [] ∧
    (construct E d p ⟨false, false, false⟩).twistAngle = 0 ∧
    (construct E d p ⟨false, false, false⟩).body = some (flatBody d) ∧
    (construct E d p ⟨false, false, false⟩).legs = some (flatLegs E d p) ∧
    (construct E d p ⟨false, false, false⟩).legs.getD [] =
      buildLegsList E.fk (flatBody d).verticesList p (legDimensionsOf d) ∧
    ∃ A, (construct E d p ⟨false, false, false⟩).localAxes = some A ∧
      A.xAxis.coords = (1, 0, 0) ∧ A.yAxis.coords = (0, 1, 0) ∧
      A.zAxis.coords = (0, 0, 1) := by
  rw [construct_unstable_eq_dangling E d p false hnone]
  refine ⟨danglingHexapod_gcp _ _ _ _ _, danglingHexapod_twistAngle _ _ _ _ _,
    ?_, ?_, ?_, computeLocalAxes identity4, danglingHexapod_localAxes _ _ _ _ _,
    computeLocalAxes_identity4_coords.1, computeLocalAxes_identity4_coords.2.1,
    computeLocalAxes_identity4_coords.2.2⟩ <;>
    simp [danglingHexapod, flatLegs]

/-- Closed witness for the unstable-pose claim: the `EnoSupport` solver
returns no value on the flat legs, and the construction at that input yields
the dangling stance. -/
theorem unstable_pose_dangling_witness :
    EnoSupport.computeOrientationProperties (flatLegs EnoSupport dconc pTwist) = none ∧
    ((construct EnoSupport dconc pTwist ⟨false, false, false⟩).groundContactPoints = some [] ∧
     (construct EnoSupport dconc pTwist ⟨false, false, false⟩).twistAngle = 0 ∧
     (construct EnoSupport dconc pTwist ⟨false, false, false⟩).body = some (flatBody dconc) ∧
     (construct EnoSupport dconc pTwist ⟨false, false, false⟩).legs = some (flatLegs EnoSupport dconc pTwist) ∧
     (construct EnoSupport dconc pTwist ⟨false, false, false⟩).legs.getD [] =
       buildLegsList EnoSupport.fk (flatBody dconc).verticesList pTwist (legDimensionsOf dconc) ∧
     ∃ A, (construct EnoSupport dconc pTwist ⟨false, false, false⟩).localAxes = some A ∧
       A.xAxis.coords = (1, 0, 0) ∧ A.yAxis.coords = (0, 1, 0) ∧
       A.zAxis.coords = (0, 0, 1)) :=
  ⟨rfl, unstable_pose_dangling EnoSupport dconc pTwist rfl⟩

/-- **C8** A dangling stance built with `shiftedUp` (through `noGravity` or an
unstable pose) carries the flat body and six legs translated upward along
world z by exactly `coxia + femur + tibia`, with no ground contact points and
the world axes as local axes. -/
theorem dangling_shiftedUp_translation (E : Externals) (d : Dimensions)
    (p : Pose) (ng : Bool)
    (hdangling : ng = true ∨
      E.computeOrientationProperties (flatLegs E d p) = none) :
    (construct E d p ⟨ng, true, false⟩).body =
      some ((flatBody d).cloneShift 0 0 (d.coxia + d.femur + d.tibia)) ∧
    (construct E d p ⟨ng, true, false⟩).legs =
      some ((flatLegs E d p).map
        (fun leg => leg.cloneShift 0 0 (d.coxia + d.femur + d.tibia))) ∧
    (construct E d p ⟨ng, true, false⟩).groundContactPoints = some [] ∧
    ∃ A, (construct E d p ⟨ng, true, false⟩).localAxes = some A ∧
      A.xAxis.coords = (1, 0, 0) ∧ A.yAxis.coords = (0, 1, 0) ∧
      A.zAxis.coords = (0, 0, 1) := by
  have hc : construct E d p ⟨ng, true, false⟩ =
      danglingHexapod d p (flatBody d) (flatLegs E d p) true := by
    rcases hdangling with hng | hn
    · subst hng; simp [construct]
    · cases hng : ng
      · simp [construct, hn]
      · simp [construct]
  rw [hc]
  refine ⟨?_, ?_, danglingHexapod_gcp _ _ _ _ _, computeLocalAxes identity4,
    danglingHexapod_localAxes _ _ _ _ _, computeLocalAxes_identity4_coords.1,
    computeLocalAxes_identity4_coords.2.1, computeLocalAxes_identity4_coords.2.2⟩ <;>
    simp [danglingHexapod, legDimensionsOf, hexagon_cloneTrotShift_identity4_shift,
      linkage_cloneTrotShift_identity4_shift]

/-- Closed witness for the shifted-up dangling claim, at the `noGravity`
flag. -/
theorem dangling_shiftedUp_translation_witness :
    (construct Esupport dconc pTwist ⟨true, true, false⟩).body =
      some ((flatBody dconc).cloneShift 0 0 (dconc.coxia + dconc.femur + dconc.tibia)) ∧
    (construct Esupport dconc pTwist ⟨true, true, false⟩).legs =
      some ((flatLegs Esupport dconc pTwist).map
        (fun leg => leg.cloneShift 0 0 (dconc.coxia + dconc.femur + dconc.tibia))) ∧
    (construct Esupport dconc pTwist ⟨true, true, false⟩).groundContactPoints = some [] ∧
    ∃ A, (construct Esupport dconc pTwist ⟨true, true, false⟩).localAxes = some A ∧
      A.xAxis.coords = (1, 0, 0) ∧ A.yAxis.coords = (0, 1, 0) ∧
      A.zAxis.coords = (0, 0, 1) :=
  dangling_shiftedUp_translation Esupport dconc pTwist true (Or.inl rfl)

/-- **C5** For every stance holding a body, `distanceFromGround` reads the
body's center-of-gravity z-coordinate on access, and because it is recomputed
from the stored body it also holds after `cloneShift` and `cloneTrot`. -/
theorem distanceFromGround_cog_z (h : VirtualHexapod) (b : Hexagon)
    (hb : h.body = some b) (m : Mat4) (tx ty tz : ℚ) :
    h.distanceFromGround = some b.cog.z ∧
    (h.cloneShift tx ty tz).distanceFromGround =
      some ((b.cloneShift tx ty tz).cog.z) ∧
    (h.cloneShift tx ty tz).distanceFromGround = some (b.cog.z + tz) ∧
    (h.cloneTrot m).distanceFromGround = some ((b.cloneTrot m).cog.z) := by
  refine ⟨?_, ?_, ?_, ?_⟩ <;>
    simp [VirtualHexapod.distanceFromGround, VirtualHexapod.cloneShift,
      VirtualHexapod.cloneTrot, hb, Hexagon.cloneShift, Point.cloneShift]

/-- Closed witness for the `distanceFromGround` claim at a concrete stance,
shift and rotation. -/
theorem distanceFromGround_cog_z_witness :
    hWithBody.body = some (buildHexagon ⟨4, 5, 6⟩) ∧
    (hWithBody.distanceFromGround = some (buildHexagon ⟨4, 5, 6⟩).cog.z ∧
     (hWithBody.cloneShift 1 2 3).distanceFromGround =
       some (((buildHexagon ⟨4, 5, 6⟩).cloneShift 1 2 3).cog.z) ∧
     (hWithBody.cloneShift 1 2 3).distanceFromGround =
       some ((buildHexagon ⟨4, 5, 6⟩).cog.z + 3) ∧
     (hWithBody.cloneTrot identity4).distanceFromGround =
       some (((buildHexagon ⟨4, 5, 6⟩).cloneTrot identity4).cog.z)) :=
  ⟨rfl, distanceFromGround_cog_z hWithBody (buildHexagon ⟨4, 5, 6⟩) rfl identity4 1 2 3⟩

/-- Every clone of a linkage keeps its pose, so the constructor's alpha check
over the aligned legs is a check over the pose hash: when all six alpha
entries are zero the check passes. -/
theorem alignedLegs_all_alpha_zero (E : Externals) (d : Dimensions) (p : Pose)
    (sol : OrientSolution)
    (hz : p.rightMiddle.alpha = 0 ∧ p.rightFront.alpha = 0 ∧
      p.leftFront.alpha = 0 ∧ p.leftMiddle.alpha = 0 ∧
      p.leftBack.alpha = 0 ∧ p.rightBack.alpha = 0) :
    ((alignedHexapod E d p sol).legs.getD []).all
      (fun leg => leg.pose.alpha == 0) = true := by
  obtain ⟨h1, h2, h3, h4, h5, h6⟩ := hz
  simp [alignedHexapod, flatLegs, buildLegsList, buildLinkage, flatBody,
    buildHexagon, POSITION_NAMES_LIST, Pose.get, Linkage.cloneTrotShift,
    Linkage.cloneTrot, Linkage.cloneShift, h1, h2, h3, h4, h5, h6]

/-- On the success path with every alpha pose angle zero, the constructor
finishes at the AlignAndShift state. -/
theorem construct_allAlphaZero (E : Externals) (d : Dimensions) (p : Pose)
    (su : Bool) (sol : OrientSolution)
    (hz : p.rightMiddle.alpha = 0 ∧ p.rightFront.alpha = 0 ∧
      p.leftFront.alpha = 0 ∧ p.leftMiddle.alpha = 0 ∧
      p.leftBack.alpha = 0 ∧ p.rightBack.alpha = 0)
    (hsolved : E.computeOrientationProperties (flatLegs E d p) = some sol) :
    construct E d p ⟨false, su, false⟩ = alignedHexapod E d p sol := by
  simp only [construct, Bool.false_eq_true, if_false, hsolved]
  simp [twistPhase, alignedLegs_all_alpha_zero E d p sol hz]

/-- **C4** When all six alpha pose angles are zero, a successful construction
has twist angle zero and the geometry is exactly the AlignAndShift result (no
twist rotation applied), whatever the beta and gamma angles; moreover the
result is unchanged under every replacement of the three twist solvers, so
they are never consulted. -/
theorem allAlphaZero_skips_twist (E : Externals) (d : Dimensions) (p : Pose)
    (su : Bool) (sol : OrientSolution)
    (hz : p.rightMiddle.alpha = 0 ∧ p.rightFront.alpha = 0 ∧
      p.leftFront.alpha = 0 ∧ p.leftMiddle.alpha = 0 ∧
      p.leftBack.alpha = 0 ∧ p.rightBack.alpha = 0)
    (hsolved : E.computeOrientationProperties (flatLegs E d p) = some sol) :
    construct E d p ⟨false, su, false⟩ = alignedHexapod E d p sol ∧
    (construct E d p ⟨false, su, false⟩).twistAngle = 0 ∧
    ∀ st mt ct,
      construct { E with simpleTwist := st, mightTwist := mt, complexTwist := ct }
        d p ⟨false, su, false⟩ = construct E d p ⟨false, su, false⟩ := by
  have hmain := construct_allAlphaZero E d p su sol hz hsolved
  refine ⟨hmain, by rw [hmain]; rfl, ?_⟩
  intro st mt ct
  have hother := construct_allAlphaZero
    { E with simpleTwist := st, mightTwist := mt, complexTwist := ct }
    d p su sol hz hsolved
  rw [hmain, hother]
  rfl

/-- Closed witness for the alpha-zero claim: concrete dimensions, a pose with
nonzero betas and gammas but zero alphas, and externals whose twist solvers
would report a twist if consulted. -/
theorem allAlphaZero_skips_twist_witness :
    Etwist.computeOrientationProperties (flatLegs Etwist dconc pBetaGamma) =
      some solBetaGamma ∧
    (construct Etwist dconc pBetaGamma ⟨false, false, false⟩ =
      alignedHexapod Etwist dconc pBetaGamma solBetaGamma ∧
     (construct Etwist dconc pBetaGamma ⟨false, false, false⟩).twistAngle = 0 ∧
     ∀ st mt ct,
       construct { Etwist with simpleTwist := st, mightTwist := mt, complexTwist := ct }
         dconc pBetaGamma ⟨false, false, false⟩ =
         construct Etwist dconc pBetaGamma ⟨false, false, false⟩) :=
  ⟨rfl, allAlphaZero_skips_twist Etwist dconc pBetaGamma false solBetaGamma
    ⟨rfl, rfl, rfl, rfl, rfl, rfl⟩ rfl⟩

/-- `_twist` maps the ground contact point list pointwise. -/
theorem twistStep_gcp (E : Externals) (h : VirtualHexapod) :
    (twistStep E h).groundContactPoints = h.groundContactPoints.map
      (fun ps => ps.map
        (fun pt => pt.cloneTrot (tRotZmatrix E.cosd E.sind h.twistAngle))) :=
  rfl

/-- The twist phase preserves the number of ground contact points. -/
theorem twistPhase_gcp_length (E : Externals) (d : Dimensions)
    (sol : OrientSolution) (h : VirtualHexapod) (l : List Point)
    (hl : h.groundContactPoints = some l) :
    ∃ m, (twistPhase E d sol h).groundContactPoints = some m ∧
      m.length = l.length := by
  by_cases h1 : ((h.legs.getD []).all (fun leg => leg.pose.alpha == 0)) = true
  · exact ⟨l, by simp [twistPhase, h1, hl], rfl⟩
  · have step1 : ∃ l1, (simpleTwistStage E sol h).groundContactPoints = some l1 ∧
        l1.length = l.length := by
      by_cases ht : E.simpleTwist sol.groundLegsNoGravity = 0
      · exact ⟨l, by simp [simpleTwistStage, ht, hl], rfl⟩
      · refine ⟨l.map (fun pt => pt.cloneTrot
          (tRotZmatrix E.cosd E.sind (E.simpleTwist sol.groundLegsNoGravity))), ?_, by simp⟩
        simp [simpleTwistStage, ht, applyZTwist, twistStep, hl]
    obtain ⟨l1, hl1, hlen1⟩ := step1
    by_cases hm : E.mightTwist sol.groundLegsNoGravity = true
    · refine ⟨l1.map (fun pt => pt.cloneTrot
        (tRotZmatrix E.cosd E.sind (complexTwistAngle E d sol))), ?_, by simp [hlen1]⟩
      simp [twistPhase, h1, complexTwistStage, hm, applyZTwist, twistStep, hl1]
    · exact ⟨l1, by simp [twistPhase, h1, complexTwistStage, hm, hl1], hlen1⟩

/-- **C3** With geometry requested (`hasNoPoints` false) and the orientation
solver honouring its 3-to-6 ground legs contract, the resulting stance always
reports its ground contact points, their number lies in {0, 3, 4, 5, 6}, the
number is 0 exactly in the dangling fallback (`noGravity` set or solver
returning no value), and on the success path it equals the number of ground
legs the solver returned. -/
theorem groundContactPoints_count (E : Externals) (d : Dimensions) (p : Pose)
    (ng su : Bool)
    (hcontract : ∀ sol,
      E.computeOrientationProperties (flatLegs E d p) = some sol →
      3 ≤ sol.groundLegsNoGravity.length ∧ sol.groundLegsNoGravity.length ≤ 6) :
    ∃ l, (construct E d p ⟨ng, su, false⟩).groundContactPoints = some l ∧
      (l.length = 0 ∨ (3 ≤ l.length ∧ l.length ≤ 6)) ∧
      (l.length = 0 ↔ (ng = true ∨
        E.computeOrientationProperties (flatLegs E d p) = none)) ∧
      (∀ sol, ng = false →
        E.computeOrientationProperties (flatLegs E d p) = some sol →
        l.length = sol.groundLegsNoGravity.length) := by
  cases hng : ng
  · cases hsol : E.computeOrientationProperties (flatLegs E d p) with
    | none =>
        refine ⟨[], ?_, Or.inl rfl, by simp [hsol], ?_⟩
        · have : construct E d p ⟨false, su, false⟩ =
              danglingHexapod d p (flatBody d) (flatLegs E d p) su := by
            simp [construct, hsol]
          rw [this]; exact danglingHexapod_gcp _ _ _ _ _
        · intro sol _ hs; exact absurd hs (by simp)
    | some sol =>
        have hc : construct E d p ⟨false, su, false⟩ =
            twistPhase E d sol (alignedHexapod E d p sol) := by
          simp [construct, hsol]
        have haligned : (alignedHexapod E d p sol).groundContactPoints =
            some (sol.groundLegsNoGravity.map
              (fun leg => leg.maybeGroundContactPoint.cloneTrotShift
                (alignMatrix E sol) 0 0 sol.height)) := rfl
        obtain ⟨m, hm, hmlen⟩ :=
          twistPhase_gcp_length E d sol (alignedHexapod E d p sol) _ haligned
        have hlen : m.length = sol.groundLegsNoGravity.length := by
          rw [hmlen, List.length_map]
        obtain ⟨hge, hle⟩ := hcontract sol hsol
        refine ⟨m, by rw [hc]; exact hm, Or.inr ⟨hlen ▸ hge, hlen ▸ hle⟩, ?_, ?_⟩
        · constructor
          · intro h0; omega
          · rintro (h | h)
            · exact absurd h (by simp)
            · exact absurd h (by simp)
        · intro sol2 _ hs2
          cases Option.some.inj hs2
          exact hlen
  · refine ⟨[], ?_, Or.inl rfl, by simp, ?_⟩
    · have : construct E d p ⟨true, su, false⟩ =
          danglingHexapod d p (flatBody d) (flatLegs E d p) su := by
        simp [construct]
      rw [this]; exact danglingHexapod_gcp _ _ _ _ _
    · intro sol hngf
      exact absurd hngf (by simp)

/-- Closed witness for the ground-contact count claim: the `Esupport` solver
returns all six legs as ground legs on the concrete flat build. -/
theorem groundContactPoints_count_witness :
    (∀ sol, Esupport.computeOrientationProperties
        (flatLegs Esupport dconc pTwist) = some sol →
      3 ≤ sol.groundLegsNoGravity.length ∧ sol.groundLegsNoGravity.length ≤ 6) ∧
    (∃ l, (construct Esupport dconc pTwist
        ⟨false, false, false⟩).groundContactPoints = some l ∧
      (l.length = 0 ∨ (3 ≤ l.length ∧ l.length ≤ 6)) ∧
      (l.length = 0 ↔ (false = true ∨ Esupport.computeOrientationProperties
        (flatLegs Esupport dconc pTwist) = none)) ∧
      (∀ sol, false = false → Esupport.computeOrientationProperties
          (flatLegs Esupport dconc pTwist) = some sol →
        l.length = sol.groundLegsNoGravity.length)) := by
  have hc : ∀ sol, Esupport.computeOrientationProperties
      (flatLegs Esupport dconc pTwist) = some sol →
      3 ≤ sol.groundLegsNoGravity.length ∧
        sol.groundLegsNoGravity.length ≤ 6 := by
    intro sol h
    cases Option.some.inj h
    decide
  exact ⟨hc, groundContactPoints_count Esupport dconc pTwist false false hc⟩

/-- **C1 (amended)** When the success path reaches the twist phase with a
nonzero simple twist and `mightTwist` true, the stored `twistAngle` is
overwritten with the complex twist result, but the geometry is the
AlignAndShift state rotated by the simple twist and then again by the complex
twist: the two z-rotations compose, only the angle field is overwritten. -/
theorem complexTwist_overwrites_angle_composes_rotation (E : Externals)
    (d : Dimensions) (p : Pose) (su : Bool) (sol : OrientSolution)
    (hsolved : E.computeOrientationProperties (flatLegs E d p) = some sol)
    (halpha : ((alignedHexapod E d p sol).legs.getD []).all
      (fun leg => leg.pose.alpha == 0) = false)
    (hsimple : E.simpleTwist sol.groundLegsNoGravity ≠ 0)
    (hmight : E.mightTwist sol.groundLegsNoGravity = true) :
    construct E d p ⟨false, su, false⟩ =
      applyZTwist E (complexTwistAngle E d sol)
        (applyZTwist E (E.simpleTwist sol.groundLegsNoGravity)
          (alignedHexapod E d p sol)) ∧
    (construct E d p ⟨false, su, false⟩).twistAngle =
      complexTwistAngle E d sol := by
  have hc : construct E d p ⟨false, su, false⟩ =
      twistPhase E d sol (alignedHexapod E d p sol) := by
    simp [construct, hsolved]
  have hphase : twistPhase E d sol (alignedHexapod E d p sol) =
      applyZTwist E (complexTwistAngle E d sol)
        (applyZTwist E (E.simpleTwist sol.groundLegsNoGravity)
          (alignedHexapod E d p sol)) := by
    rw [twistPhase, if_neg (by simp [halpha]), complexTwistStage,
      if_pos hmight, simpleTwistStage, if_neg hsimple]
  exact ⟨hc.trans hphase, by rw [hc, hphase]; rfl⟩

/-- Closed witness for the amended twist claim at the concrete `Etwist`
construction. -/
theorem complexTwist_composes_witness :
    Etwist.computeOrientationProperties (flatLegs Etwist dconc pTwist) =
      some solTwist ∧
    ((alignedHexapod Etwist dconc pTwist solTwist).legs.getD []).all
      (fun leg => leg.pose.alpha == 0) = false ∧
    Etwist.simpleTwist solTwist.groundLegsNoGravity ≠ 0 ∧
    Etwist.mightTwist solTwist.groundLegsNoGravity = true ∧
    (construct Etwist dconc pTwist ⟨false, false, false⟩ =
      applyZTwist Etwist (complexTwistAngle Etwist dconc solTwist)
        (applyZTwist Etwist (Etwist.simpleTwist solTwist.groundLegsNoGravity)
          (alignedHexapod Etwist dconc pTwist solTwist)) ∧
     (construct Etwist dconc pTwist ⟨false, false, false⟩).twistAngle =
       complexTwistAngle Etwist dconc solTwist) :=
  ⟨rfl, by decide, by decide, rfl,
    complexTwist_overwrites_angle_composes_rotation Etwist dconc pTwist false
      solTwist rfl (by decide) (by decide) rfl⟩

/-- **C1 (counterexample)** At a concrete construction whose simple twist is
90 and whose complex twist is 180 (with `mightTwist` true), the final local
axes differ from the AlignAndShift local axes rotated by the complex twist
angle alone: the claim that the complex twist overwrites the simple twist
geometrically is false, the rotations compose. -/
theorem complexTwist_pure_overwrite_refuted :
    Etwist.computeOrientationProperties (flatLegs Etwist dconc pTwist) =
      some solTwist ∧
    Etwist.simpleTwist solTwist.groundLegsNoGravity = 90 ∧
    Etwist.mightTwist solTwist.groundLegsNoGravity = true ∧
    (construct Etwist dconc pTwist ⟨false, false, false⟩).localAxes ≠
      (applyZTwist Etwist (complexTwistAngle Etwist dconc solTwist)
        (alignedHexapod Etwist dconc pTwist solTwist)).localAxes := by
  refine ⟨rfl, rfl, rfl, ?_⟩
  have halpha : ((alignedHexapod Etwist dconc pTwist solTwist).legs.getD []).all
      (fun leg => leg.pose.alpha == 0) = false := by decide
  have hpath : construct Etwist dconc pTwist ⟨false, false, false⟩ =
      applyZTwist Etwist (complexTwistAngle Etwist dconc solTwist)
        (applyZTwist Etwist (Etwist.simpleTwist solTwist.groundLegsNoGravity)
          (alignedHexapod Etwist dconc pTwist solTwist)) := by
    have hc : construct Etwist dconc pTwist ⟨false, false, false⟩ =
        twistPhase Etwist dconc solTwist
          (alignedHexapod Etwist dconc pTwist solTwist) := rfl
    rw [hc, twistPhase, if_neg (by simp [halpha]), complexTwistStage,
      if_pos (show Etwist.mightTwist solTwist.groundLegsNoGravity = true from rfl),
      simpleTwistStage, if_neg (by decide)]
  rw [hpath]
  have ht2 : complexTwistAngle Etwist dconc solTwist = 180 := rfl
  have hAM : alignMatrix Etwist solTwist = identity4 := rfl
  have hsimple90 : Etwist.simpleTwist solTwist.groundLegsNoGravity = 90 := rfl
  rw [ht2, hsimple90]
  simp only [applyZTwist, twistStep, alignedHexapod, hAM]
  norm_num [transformLocalAxes, computeLocalAxes, Point.newTrot,
    Point.cloneTrot, tRotZmatrix, identity4, WORLD_AXES, Etwist,
    LocalAxes.mk.injEq, Point.mk.injEq]

end Hexapod
